import Mathlib

/-!
Verification of the flux-normalizer conversions in `ilamb-jpl`.

The repository converts raw carbon-flux datasets into CF-compliant form.
The two functions with actual logic are
`convert_cardamom` (src/data/CARDAMOM/cardamom_to_cf.py) and
`cf_compliant` (src/data/CarbonFluxes/convert.py).  This file gives a
shallow embedding of both and proves the frozen claims about them.
-/

namespace ILAMB

/-- A calendar date, as the (year, month, day) triples the converters
manipulate (cftime.DatetimeNoLeap values / `start_date` rows). -/
structure Date where
  year : Nat
  month : Nat
  day : Nat
deriving DecidableEq, Repr

/-- Days before the first of month `m` in the 365-day `noleap` calendar
used by both converters (cumulative month lengths 31,28,31,...). -/
def daysBeforeMonth (m : Nat) : Nat :=
  if m ≤ 1 then 0 else if m = 2 then 31 else if m = 3 then 59 else if m = 4 then 90
  else if m = 5 then 120 else if m = 6 then 151 else if m = 7 then 181 else if m = 8 then 212
  else if m = 9 then 243 else if m = 10 then 273 else if m = 11 then 304 else 334

/-- Ordinal day number of a date in the `noleap` calendar (the encoding
"days since ..." that the outputs are serialized with uses exactly this
365-day year arithmetic). -/
def toOrdinal (t : Date) : Nat :=
  365 * t.year + daysBeforeMonth t.month + (t.day - 1)

/-- Month of a day-of-year (0-based) in the `noleap` calendar. -/
def monthOfYearDay (x : Nat) : Nat :=
  if x < 31 then 1 else if x < 59 then 2 else if x < 90 then 3 else if x < 120 then 4
  else if x < 151 then 5 else if x < 181 then 6 else if x < 212 then 7 else if x < 243 then 8
  else if x < 273 then 9 else if x < 304 then 10 else if x < 334 then 11 else 12

/-- Day-of-month (1-based) of a day-of-year (0-based) in the `noleap` calendar. -/
def dayOfMonthOf (x : Nat) : Nat :=
  if x < 31 then x + 1 else if x < 59 then x - 31 + 1 else if x < 90 then x - 59 + 1
  else if x < 120 then x - 90 + 1 else if x < 151 then x - 120 + 1
  else if x < 181 then x - 151 + 1 else if x < 212 then x - 181 + 1
  else if x < 243 then x - 212 + 1 else if x < 273 then x - 243 + 1
  else if x < 304 then x - 273 + 1 else if x < 334 then x - 304 + 1 else x - 334 + 1

/-- Decode a `noleap` ordinal day number back into a date. -/
def fromOrdinal (n : Nat) : Date :=
  ⟨n / 365, monthOfYearDay (n % 365), dayOfMonthOf (n % 365)⟩

/-- `cf.DatetimeNoLeap(t.dt.year, t.dt.month, 15)`: the fixed mid-month
timestamp both converters produce for each input time step. -/
def midMonth (t : Date) : Date :=
  ⟨t.year, t.month, 15⟩

/-- Lower time bound in `convert_cardamom`:
`cf.DatetimeNoLeap(t.dt.year, t.dt.month, 1)`. -/
def lowerBound (t : Date) : Date :=
  ⟨t.year, t.month, 1⟩

/-- Upper time bound in `convert_cardamom`:
`cf.DatetimeNoLeap((t.dt.year+1) if t.dt.month == 12 else t.dt.year,
1 if t.dt.month == 12 else (t.dt.month+1), 1)`. -/
def upperBound (t : Date) : Date :=
  ⟨if t.month = 12 then t.year + 1 else t.year,
   if t.month = 12 then 1 else t.month + 1, 1⟩

/-- The variable attributes (netCDF `attrs` entries) the converters read or
write. -/
structure Attrs where
  units : Option String := none
  long_name : Option String := none
  standard_name : Option String := none
  ancillary_variables : Option String := none
deriving DecidableEq, Repr

/-- One character-level pass of Python `str.replace(pat, rep)`, with fuel
(the fuel is the string length; every step consumes at least one
character when `pat` is nonempty). -/
def replaceAllAux (pat rep : List Char) : Nat → List Char → List Char
  | 0, _ => []
  | _ + 1, [] => []
  | fuel + 1, c :: rest =>
    if pat ≠ [] ∧ pat.isPrefixOf (c :: rest) then
      rep ++ replaceAllAux pat rep fuel ((c :: rest).drop pat.length)
    else
      c :: replaceAllAux pat rep fuel rest

/-- Python `s.replace(pat, rep)` on strings. -/
def sreplace (pat rep s : String) : String :=
  ⟨replaceAllAux pat.data rep.data s.data.length s.data⟩

/-- Errors the conversion can raise.  In the source these surface as
exceptions: a failed `xarray` rename (missing `time_fluxes`) and a failed
`.sel(quantile=...)` lookup (a required quantile level absent, the spec's
`MissingAxisError`). -/
inductive ConvError where
  | missingDim : ConvError
  | missingAxis : ConvError
deriving DecidableEq, Repr

/-- The CARDAMOM input dataset restricted to what `convert_cardamom`
touches: its dimension/coordinate names, the processed variable's units
attribute and quantile slices (quantile level paired with the field over
the remaining time/space index `ι`), and the time-step dates. -/
structure CardamomInput (ι : Type) where
  dims : List String
  vname : String
  varUnits : String
  quantileVals : List (ℚ × (ι → ℝ))
  times : List Date

/-- The converted CARDAMOM dataset: the primary (median) variable, the
derived uncertainty variable, their attributes, and the rebuilt time axis
with bounds. -/
structure CardamomOutput (ι : Type) where
  vname : String
  primary : ι → ℝ
  primaryAttrs : Attrs
  uncert : ι → ℝ
  uncertAttrs : Attrs
  times : List Date
  timeBounds : List (Date × Date)

/-- `var.sel(quantile=q)`: look the level `q` up on the quantile axis;
a missing label raises (KeyError in xarray, the spec's MissingAxisError). -/
def selQ {ι : Type} (v : List (ℚ × (ι → ℝ))) (q : ℚ) : Except ConvError (ι → ℝ) :=
  match v with
  | [] => .error .missingAxis
  | p :: rest => if p.1 = q then .ok p.2 else selQ rest q

/-- Shallow embedding of `convert_cardamom` (src/data/CARDAMOM/cardamom_to_cf.py):
rename `time_fluxes` to `time` (raises if absent), take the 0.5-quantile
slice as the primary variable, rewrite `gC` to `g` in its units, derive
uncertainty as sqrt((q75-q50)^2 + (q25-q50)^2), link the metadata, and
rebuild the time axis as mid-month `noleap` stamps with
[first-of-month, first-of-next-month) bounds. -/
noncomputable def convert_cardamom {ι : Type} (ds : CardamomInput ι) :
    Except ConvError (CardamomOutput ι) :=
  if "time_fluxes" ∈ ds.dims then
    match selQ ds.quantileVals (1/2) with
    | .error e => .error e
    | .ok q50 =>
      match selQ ds.quantileVals (3/4) with
      | .error e => .error e
      | .ok q75 =>
        match selQ ds.quantileVals (1/4) with
        | .error e => .error e
        | .ok q25 =>
          .ok { vname := ds.vname
                primary := q50
                primaryAttrs := { units := some (sreplace "gC" "g" ds.varUnits)
                                  ancillary_variables := some (ds.vname ++ "_uncert") }
                uncert := fun x => Real.sqrt ((q75 x - q50 x) ^ 2 + (q25 x - q50 x) ^ 2)
                uncertAttrs := { units := some (sreplace "gC" "g" ds.varUnits)
                                 long_name := some (ds.vname ++ " standard_error") }
                times := ds.times.map midMonth
                timeBounds := (ds.times.map midMonth).map
                  (fun t => (lowerBound t, upperBound t)) }
  else .error .missingDim

/-- The JPL input dataset restricted to what `cf_compliant` touches: the
`start_date` (year, month, day) rows and the data variables with their
attributes (the numeric payloads play no role in the claims). -/
structure CFInput where
  startDates : List Date
  vars : List (String × Attrs)
deriving DecidableEq, Repr

/-- The converted JPL dataset: the rebuilt time axis, its bounds, and the
(renamed) data variables with their final attributes. -/
structure CFOutput where
  times : List Date
  timeBounds : List (Date × Date)
  vars : List (String × Attrs)
deriving DecidableEq, Repr

/-- The time-bounds row `cf_compliant` builds from a `start_date` triple
(y, m, d): lower bound `DatetimeNoLeap(y, m, d)`, upper bound
`DatetimeNoLeap((y+1) if m == 12 else y, 1 if m == 12 else (m+1), d)`. -/
def cfBounds (t : Date) : Date × Date :=
  (⟨t.year, t.month, t.day⟩,
   ⟨if t.month = 12 then t.year + 1 else t.year,
    if t.month = 12 then 1 else t.month + 1, t.day⟩)

/-- The units loop: `for var in ds: ds[var].attrs["units"] = "g m-2 year-1"`. -/
def setUnitsStep (vars : List (String × Attrs)) : List (String × Attrs) :=
  vars.map (fun p => (p.1, { p.2 with units := some "g m-2 year-1" }))

/-- `key.replace("land", "nbp").replace("ocean", "fgco2")`. -/
def renameVar (n : String) : String :=
  sreplace "ocean" "fgco2" (sreplace "land" "nbp" n)

/-- The CMOR rename step over all variable names. -/
def renameStep (vars : List (String × Attrs)) : List (String × Attrs) :=
  vars.map (fun p => (renameVar p.1, p.2))

/-- One variable's attribute updates in the std-linking loop: a variable
`n` with companion `n_std` present gains `ancillary_variables = n_std`;
a variable that is some `m`'s std companion gains
`standard_name = "m standard_error"`. -/
def stdAttrs (names : List String) (p : String × Attrs) : Attrs :=
  let a1 := if (p.1 ++ "_std") ∈ names then
      { p.2 with ancillary_variables := some (p.1 ++ "_std") } else p.2
  match names.find? (fun m => m ++ "_std" == p.1) with
  | some m => { a1 with standard_name := some (m ++ " standard_error") }
  | none => a1

/-- The std-linking loop over the whole dataset. -/
def stdLinkStep (vars : List (String × Attrs)) : List (String × Attrs) :=
  vars.map (fun p => (p.1, stdAttrs (vars.map Prod.fst) p))

/-- Shallow embedding of `cf_compliant` (src/data/CarbonFluxes/convert.py):
mid-month `noleap` time axis from the `start_date` rows, bounds rows from
the same triples, units set to the fixed string on every variable, CMOR
rename, then std/uncertainty metadata linkage. -/
def cf_compliant (ds : CFInput) : CFOutput :=
  { times := ds.startDates.map midMonth
    timeBounds := ds.startDates.map cfBounds
    vars := stdLinkStep (renameStep (setUnitsStep ds.vars)) }

/-! ### Helper lemmas about the embeddings -/

/-- If level `q` is absent from the quantile axis, `selQ` raises the
missing-axis error. -/
theorem selQ_eq_error_of_absent {ι : Type} (v : List (ℚ × (ι → ℝ))) (q : ℚ)
    (h : ∀ p ∈ v, p.1 ≠ q) : selQ v q = .error .missingAxis := by
  induction v with
  | nil => rfl
  | cons p rest ih =>
    have hp : p.1 ≠ q := h p (List.mem_cons_self p rest)
    simp only [selQ, if_neg hp]
    exact ih (fun r hr => h r (List.mem_cons_of_mem p hr))

/-- `selQ` either succeeds or raises the missing-axis error. -/
theorem selQ_ok_or_error {ι : Type} (v : List (ℚ × (ι → ℝ))) (q : ℚ) :
    (∃ f, selQ v q = .ok f) ∨ selQ v q = .error .missingAxis := by
  induction v with
  | nil => exact Or.inr rfl
  | cons p rest ih =>
    by_cases hp : p.1 = q
    · exact Or.inl ⟨p.2, by simp [selQ, hp]⟩
    · simpa [selQ, hp] using ih

/-- Forward evaluation of `convert_cardamom` when the rename succeeds and
all three quantile levels are present. -/
theorem convert_cardamom_ok {ι : Type} (ds : CardamomInput ι) (q25 q50 q75 : ι → ℝ)
    (hdim : "time_fluxes" ∈ ds.dims)
    (h50 : selQ ds.quantileVals (1/2) = .ok q50)
    (h75 : selQ ds.quantileVals (3/4) = .ok q75)
    (h25 : selQ ds.quantileVals (1/4) = .ok q25) :
    convert_cardamom ds = Except.ok
      { vname := ds.vname
        primary := q50
        primaryAttrs := { units := some (sreplace "gC" "g" ds.varUnits)
                          ancillary_variables := some (ds.vname ++ "_uncert") }
        uncert := fun x => Real.sqrt ((q75 x - q50 x) ^ 2 + (q25 x - q50 x) ^ 2)
        uncertAttrs := { units := some (sreplace "gC" "g" ds.varUnits)
                         long_name := some (ds.vname ++ " standard_error") }
        times := ds.times.map midMonth
        timeBounds := (ds.times.map midMonth).map
          (fun t => (lowerBound t, upperBound t)) } := by
  simp only [convert_cardamom, if_pos hdim, h50, h75, h25]

/-- Inversion: a successful `convert_cardamom` run determines the whole
output record from the three quantile slices. -/
theorem convert_cardamom_ok_inv {ι : Type} (ds : CardamomInput ι)
    (out : CardamomOutput ι) (h : convert_cardamom ds = .ok out) :
    ∃ q25 q50 q75 : ι → ℝ, "time_fluxes" ∈ ds.dims ∧
      selQ ds.quantileVals (1/2) = .ok q50 ∧
      selQ ds.quantileVals (3/4) = .ok q75 ∧
      selQ ds.quantileVals (1/4) = .ok q25 ∧
      out = { vname := ds.vname
              primary := q50
              primaryAttrs := { units := some (sreplace "gC" "g" ds.varUnits)
                                ancillary_variables := some (ds.vname ++ "_uncert") }
              uncert := fun x => Real.sqrt ((q75 x - q50 x) ^ 2 + (q25 x - q50 x) ^ 2)
              uncertAttrs := { units := some (sreplace "gC" "g" ds.varUnits)
                               long_name := some (ds.vname ++ " standard_error") }
              times := ds.times.map midMonth
              timeBounds := (ds.times.map midMonth).map
                (fun t => (lowerBound t, upperBound t)) } := by
  by_cases hdim : "time_fluxes" ∈ ds.dims
  · rcases selQ_ok_or_error ds.quantileVals (1/2) with ⟨q50, h50⟩ | h50
    · rcases selQ_ok_or_error ds.quantileVals (3/4) with ⟨q75, h75⟩ | h75
      · rcases selQ_ok_or_error ds.quantileVals (1/4) with ⟨q25, h25⟩ | h25
        · refine ⟨q25, q50, q75, hdim, h50, h75, h25, ?_⟩
          rw [convert_cardamom_ok ds q25 q50 q75 hdim h50 h75 h25] at h
          exact (Except.ok.inj h).symm
        · simp only [convert_cardamom, if_pos hdim, h50, h75, h25] at h
          exact Except.noConfusion h
      · simp only [convert_cardamom, if_pos hdim, h50, h75] at h
        exact Except.noConfusion h
    · simp only [convert_cardamom, if_pos hdim, h50] at h
      exact Except.noConfusion h
  · simp only [convert_cardamom, if_neg hdim] at h
    exact Except.noConfusion h

/-- The cumulative month offsets are bounded by the December offset. -/
theorem daysBeforeMonth_le (m : Nat) : daysBeforeMonth m ≤ 334 := by
  by_cases h : m ≤ 12
  · interval_cases m <;> decide
  · simp only [daysBeforeMonth]
    repeat rw [if_neg (by omega)]

/-- The cumulative month offsets are strictly monotone on valid months. -/
theorem daysBeforeMonth_lt (m1 m2 : Nat) (h1 : 1 ≤ m1) (h : m1 < m2) (h2 : m2 ≤ 12) :
    daysBeforeMonth m1 < daysBeforeMonth m2 := by
  interval_cases m2 <;> interval_cases m1 <;> decide

/-- Decoding the day-of-year of the fifteenth of a valid month recovers
the month. -/
theorem monthOfYearDay_mid (m : Nat) (h1 : 1 ≤ m) (h2 : m ≤ 12) :
    monthOfYearDay (daysBeforeMonth m + 14) = m := by
  interval_cases m <;> decide

/-- Decoding the day-of-year of the fifteenth of a valid month recovers
the day 15. -/
theorem dayOfMonthOf_mid (m : Nat) (h1 : 1 ≤ m) (h2 : m ≤ 12) :
    dayOfMonthOf (daysBeforeMonth m + 14) = 15 := by
  interval_cases m <;> decide

/-- Mid-month stamps of later (year, month) pairs have larger `noleap`
ordinals. -/
theorem toOrdinal_midMonth_lt (a b : Date) (ha1 : 1 ≤ a.month) (hb2 : b.month ≤ 12)
    (h : a.year < b.year ∨ (a.year = b.year ∧ a.month < b.month)) :
    toOrdinal (midMonth a) < toOrdinal (midMonth b) := by
  have h1 := daysBeforeMonth_le a.month
  have h2 := daysBeforeMonth_le b.month
  show 365 * a.year + daysBeforeMonth a.month + (15 - 1)
      < 365 * b.year + daysBeforeMonth b.month + (15 - 1)
  rcases h with h | ⟨hy, hm⟩
  · omega
  · have := daysBeforeMonth_lt a.month b.month ha1 hm hb2
    omega

/-- Boolean check that a list of mid-month stamps has strictly increasing
`noleap` ordinals (no gaps in order, no duplicates). -/
def strictlyIncreasing : List Date → Bool
  | [] => true
  | [_] => true
  | a :: b :: rest =>
    decide (toOrdinal a < toOrdinal b) && strictlyIncreasing (b :: rest)

/-- Boolean check that the (year, month) pairs of a list of dates are
strictly increasing. -/
def monthIncreasing : List Date → Bool
  | [] => true
  | [_] => true
  | a :: b :: rest =>
    decide (a.year < b.year ∨ (a.year = b.year ∧ a.month < b.month)) &&
      monthIncreasing (b :: rest)

/-- Boolean check that every month field of a list of dates is a valid
month number. -/
def validMonths (l : List Date) : Bool :=
  l.all (fun t => decide (1 ≤ t.month ∧ t.month ≤ 12))

/-- Mapping `midMonth` over dates with valid, strictly increasing
(year, month) pairs yields strictly increasing `noleap` ordinals. -/
theorem strictlyIncreasing_map_midMonth (l : List Date)
    (hv : validMonths l = true) (hm : monthIncreasing l = true) :
    strictlyIncreasing (l.map midMonth) = true := by
  induction l with
  | nil => rfl
  | cons a t ih =>
    cases t with
    | nil => rfl
    | cons b t2 =>
      simp only [validMonths, List.all_cons, Bool.and_eq_true, decide_eq_true_eq] at hv
      simp only [monthIncreasing, Bool.and_eq_true, decide_eq_true_eq] at hm
      simp only [List.map_cons, strictlyIncreasing, Bool.and_eq_true, decide_eq_true_eq]
      refine ⟨toOrdinal_midMonth_lt a b hv.1.1 hv.2.1.2 hm.1, ?_⟩
      have := ih (by simp only [validMonths, List.all_cons, Bool.and_eq_true]
                     exact ⟨by simpa using hv.2.1, by simpa using hv.2.2⟩) hm.2
      simpa using this

/-! ### Helper lemmas about the `cf_compliant` pipeline steps -/

/-- The std-linking loop never changes a units attribute. -/
theorem stdAttrs_units (names : List String) (p : String × Attrs) :
    (stdAttrs names p).units = p.2.units := by
  unfold stdAttrs
  split_ifs <;> split <;> rfl

/-- A variable whose std companion is in the dataset gains the
`ancillary_variables` reference to it. -/
theorem stdAttrs_ancillary (names : List String) (p : String × Attrs)
    (h : (p.1 ++ "_std") ∈ names) :
    (stdAttrs names p).ancillary_variables = some (p.1 ++ "_std") := by
  unfold stdAttrs
  rw [if_pos h]
  split <;> rfl

/-- Right cancellation for string append. -/
theorem string_append_cancel (a b c : String) (h : a ++ c = b ++ c) : a = b := by
  have hd : a.data ++ c.data = b.data ++ c.data := by
    rw [← String.data_append, ← String.data_append, h]
  exact String.ext (List.append_cancel_right hd)

/-- A variable that is the std companion of a variable `m` of the dataset
gains the `standard_name` naming it `m`'s standard error. -/
theorem stdAttrs_standard (names : List String) (p : String × Attrs) (m : String)
    (hm : m ∈ names) (hp : p.1 = m ++ "_std") :
    (stdAttrs names p).standard_name = some (m ++ " standard_error") := by
  unfold stdAttrs
  rcases hf : names.find? (fun x => x ++ "_std" == p.1) with _ | m0
  · exfalso
    have := List.find?_eq_none.mp hf m hm
    simp [hp] at this
  · have hpred := List.find?_some hf
    have : m0 ++ "_std" = m ++ "_std" := by
      have := (beq_iff_eq).mp hpred
      rw [this, hp]
    have hm0 : m0 = m := string_append_cancel m0 m "_std" this
    subst hm0
    simp

/-- The std-linking loop preserves the variable names. -/
theorem stdLinkStep_names (vars : List (String × Attrs)) :
    (stdLinkStep vars).map Prod.fst = vars.map Prod.fst := by
  simp [stdLinkStep, List.map_map, Function.comp]

/-- Every variable of the renamed, units-normalized dataset carries the
fixed units string. -/
theorem units_after_setUnits (vars : List (String × Attrs)) (n : String) (a : Attrs)
    (h : (n, a) ∈ renameStep (setUnitsStep vars)) :
    a.units = some "g m-2 year-1" := by
  simp only [renameStep, setUnitsStep, List.map_map, List.mem_map, Function.comp] at h
  obtain ⟨p, hp, heq⟩ := h
  have := congrArg Prod.snd heq
  simp at this
  rw [← this]

/-- Every variable of the final `cf_compliant` dataset carries the fixed
units string. -/
theorem units_after_cf (ds : CFInput) (n : String) (a : Attrs)
    (h : (n, a) ∈ (cf_compliant ds).vars) :
    a.units = some "g m-2 year-1" := by
  simp only [cf_compliant, stdLinkStep, List.mem_map] at h
  obtain ⟨p, hp, heq⟩ := h
  have ha := congrArg Prod.snd heq
  simp only at ha
  rw [← ha, stdAttrs_units]
  exact units_after_setUnits ds.vars p.1 p.2 (by simpa using hp)

/-! ### Concrete example inputs used by witnesses and counterexamples -/

/-- Constant 0.25-quantile slice of the example dataset. -/
def exQp25 : Unit → ℝ := fun _ => 2

/-- Constant 0.5-quantile slice of the example dataset. -/
def exQp50 : Unit → ℝ := fun _ => 3

/-- Constant 0.75-quantile slice of the example dataset. -/
def exQp75 : Unit → ℝ := fun _ => 5

/-- Example CARDAMOM dataset: one December 2020 time step, quantile values
0.25 ↦ 2.0, 0.5 ↦ 3.0, 0.75 ↦ 5.0 at the single space point. -/
def exQ : CardamomInput Unit :=
  { dims := ["time_fluxes", "latitude", "longitude", "quantile"]
    vname := "gpp"
    varUnits := "gC m-2 day-1"
    quantileVals := [(1/4, exQp25), (1/2, exQp50), (3/4, exQp75)]
    times := [⟨2020, 12, 3⟩] }

theorem exQ_sel50 : selQ exQ.quantileVals (1/2) = .ok exQp50 := by
  norm_num [selQ, exQ]

theorem exQ_sel75 : selQ exQ.quantileVals (3/4) = .ok exQp75 := by
  norm_num [selQ, exQ]

theorem exQ_sel25 : selQ exQ.quantileVals (1/4) = .ok exQp25 := by
  norm_num [selQ, exQ]

/-- The output record `convert_cardamom` produces on `exQ`. -/
noncomputable def exQout : CardamomOutput Unit :=
  { vname := "gpp"
    primary := exQp50
    primaryAttrs := { units := some "g m-2 day-1"
                      ancillary_variables := some "gpp_uncert" }
    uncert := fun x => Real.sqrt ((exQp75 x - exQp50 x) ^ 2 + (exQp25 x - exQp50 x) ^ 2)
    uncertAttrs := { units := some "g m-2 day-1"
                     long_name := some "gpp standard_error" }
    times := [⟨2020, 12, 15⟩]
    timeBounds := [(⟨2020, 12, 1⟩, ⟨2021, 1, 1⟩)] }

theorem exQ_converts : convert_cardamom exQ = Except.ok exQout := by
  rw [convert_cardamom_ok exQ exQp25 exQp50 exQp75 (by decide) exQ_sel50 exQ_sel75 exQ_sel25]
  rfl

/-! ### The claims -/

/-- C1.  On the quantile path, the primary output variable is the
0.5-quantile slice and the derived uncertainty field is
sqrt((q75 - q50)^2 + (q25 - q50)^2) elementwise. -/
theorem C1_primary_median_uncert_geometric {ι : Type} (ds : CardamomInput ι)
    (q25 q50 q75 : ι → ℝ) (out : CardamomOutput ι)
    (hdim : "time_fluxes" ∈ ds.dims)
    (h50 : selQ ds.quantileVals (1/2) = .ok q50)
    (h75 : selQ ds.quantileVals (3/4) = .ok q75)
    (h25 : selQ ds.quantileVals (1/4) = .ok q25)
    (hok : convert_cardamom ds = .ok out) :
    out.primary = q50 ∧
    ∀ x, out.uncert x = Real.sqrt ((q75 x - q50 x) ^ 2 + (q25 x - q50 x) ^ 2) := by
  rw [convert_cardamom_ok ds q25 q50 q75 hdim h50 h75 h25] at hok
  have h := (Except.ok.inj hok).symm
  subst h
  exact ⟨rfl, fun x => rfl⟩

/-- C1 witness: on the quantile values {0.25 ↦ 2.0, 0.5 ↦ 3.0, 0.75 ↦ 5.0}
at a single time/space point, the primary value is 3.0 and the
uncertainty is sqrt(5). -/
theorem C1_primary_median_uncert_geometric_witness :
    convert_cardamom exQ = Except.ok exQout ∧
    exQout.primary () = 3 ∧ exQout.uncert () = Real.sqrt 5 := by
  have h := C1_primary_median_uncert_geometric exQ exQp25 exQp50 exQp75 exQout
    (by decide) exQ_sel50 exQ_sel75 exQ_sel25 exQ_converts
  refine ⟨exQ_converts, ?_, ?_⟩
  · rw [h.1]
    rfl
  · rw [h.2 ()]
    norm_num [exQp25, exQp50, exQp75]

/-- Example CARDAMOM dataset whose quantile axis lacks the 0.75 level. -/
def exMissing : CardamomInput Unit :=
  { dims := ["time_fluxes", "latitude", "longitude", "quantile"]
    vname := "gpp"
    varUnits := "gC m-2 day-1"
    quantileVals := [(1/4, exQp25), (1/2, exQp50)]
    times := [⟨2020, 12, 3⟩] }

/-- C3.  On the quantile path, if any of the required levels 0.25, 0.5,
0.75 is absent from the quantile axis, the conversion fails with the
missing-axis error (the failure is fatal: the run returns the error and
nothing is silently swallowed). -/
theorem C3_missing_level_fails {ι : Type} (ds : CardamomInput ι)
    (hdim : "time_fluxes" ∈ ds.dims)
    (h : (∀ p ∈ ds.quantileVals, p.1 ≠ (1/4 : ℚ)) ∨
         (∀ p ∈ ds.quantileVals, p.1 ≠ (1/2 : ℚ)) ∨
         (∀ p ∈ ds.quantileVals, p.1 ≠ (3/4 : ℚ))) :
    convert_cardamom ds = .error .missingAxis := by
  rcases h with h | h | h
  · rcases selQ_ok_or_error ds.quantileVals (1/2) with ⟨q50, h50⟩ | h50
    · rcases selQ_ok_or_error ds.quantileVals (3/4) with ⟨q75, h75⟩ | h75
      · have h25 := selQ_eq_error_of_absent ds.quantileVals (1/4) h
        simp only [convert_cardamom, if_pos hdim, h50, h75, h25]
      · simp only [convert_cardamom, if_pos hdim, h50, h75]
    · simp only [convert_cardamom, if_pos hdim, h50]
  · have h50 := selQ_eq_error_of_absent ds.quantileVals (1/2) h
    simp only [convert_cardamom, if_pos hdim, h50]
  · rcases selQ_ok_or_error ds.quantileVals (1/2) with ⟨q50, h50⟩ | h50
    · have h75 := selQ_eq_error_of_absent ds.quantileVals (3/4) h
      simp only [convert_cardamom, if_pos hdim, h50, h75]
    · simp only [convert_cardamom, if_pos hdim, h50]

/-- C3 witness: a dataset lacking the 0.75 level fails with the
missing-axis error. -/
theorem C3_missing_level_fails_witness :
    convert_cardamom exMissing = .error .missingAxis := by
  refine C3_missing_level_fails exMissing (by decide) (Or.inr (Or.inr ?_))
  intro p hp
  simp only [exMissing, List.mem_cons, List.mem_singleton] at hp
  rcases hp with rfl | rfl | h
  · norm_num
  · norm_num
  · simp at h

/-- C5.  The derived uncertainty variable of a successful conversion is
non-negative elementwise. -/
theorem C5_uncert_nonneg {ι : Type} (ds : CardamomInput ι) (out : CardamomOutput ι)
    (hok : convert_cardamom ds = .ok out) (x : ι) : 0 ≤ out.uncert x := by
  obtain ⟨q25, q50, q75, _, _, _, _, hout⟩ := convert_cardamom_ok_inv ds out hok
  subst hout
  exact Real.sqrt_nonneg _

/-- C5 witness: the uncertainty of the example conversion is
non-negative at its single point. -/
theorem C5_uncert_nonneg_witness :
    convert_cardamom exQ = Except.ok exQout ∧ 0 ≤ exQout.uncert () :=
  ⟨exQ_converts, C5_uncert_nonneg exQ exQout exQ_converts ()⟩

/-- Example CARDAMOM dataset whose time axis is named `time` instead of
the required `time_fluxes`. -/
def exNoFluxDim : CardamomInput Unit :=
  { dims := ["time", "latitude", "longitude", "quantile"]
    vname := "gpp"
    varUnits := "gC m-2 day-1"
    quantileVals := [(1/4, exQp25), (1/2, exQp50), (3/4, exQp75)]
    times := [⟨2020, 12, 3⟩] }

/-- C10.  `convert_cardamom` requires the time-like axis to be named
exactly `time_fluxes`: any input without such a dimension or coordinate
makes the rename step raise, so the conversion fails. -/
theorem C10_requires_time_fluxes {ι : Type} (ds : CardamomInput ι)
    (h : "time_fluxes" ∉ ds.dims) :
    convert_cardamom ds = .error .missingDim := by
  simp only [convert_cardamom, if_neg h]

/-- C10 witness: a dataset whose axes are named `time`, `latitude`,
`longitude`, `quantile` is rejected. -/
theorem C10_requires_time_fluxes_witness :
    convert_cardamom exNoFluxDim = .error .missingDim :=
  C10_requires_time_fluxes exNoFluxDim (by decide)

/-- Example JPL dataset with a single start date that is not the first of
its month. -/
def cfEx : CFInput := { startDates := [⟨2020, 3, 5⟩], vars := [] }

/-- C2 counterexample: for the `cf_compliant` input time step (2020, 3, 5)
the computed bounds pair is ((2020, 3, 5), (2020, 4, 5)) — the bounds
reuse the input day, so neither bound is the first day of a month. -/
theorem C2_counterexample_bounds_use_input_day :
    (cf_compliant cfEx).timeBounds = [(Date.mk 2020 3 5, Date.mk 2020 4 5)] ∧
    (Date.mk 2020 3 5).day ≠ 1 ∧ (Date.mk 2020 4 5).day ≠ 1 := by
  decide

/-- C2 (amended).  `convert_cardamom` computes the bounds pair
[(y, m, 1), (roll(y, m), 1)) as claimed; `cf_compliant` computes
[(y, m, d), (roll(y, m), d)) reusing the input day d, which is the
claimed pair exactly when d = 1.  In both, December rolls over to
January of year + 1. -/
theorem C2_bounds_amended :
    (∀ (ι : Type) (ds : CardamomInput ι) (out : CardamomOutput ι),
        convert_cardamom ds = .ok out →
        out.timeBounds = ds.times.map (fun t =>
          (Date.mk t.year t.month 1,
           Date.mk (if t.month = 12 then t.year + 1 else t.year)
             (if t.month = 12 then 1 else t.month + 1) 1))) ∧
    (∀ ds : CFInput, (cf_compliant ds).timeBounds = ds.startDates.map (fun t =>
          (Date.mk t.year t.month t.day,
           Date.mk (if t.month = 12 then t.year + 1 else t.year)
             (if t.month = 12 then 1 else t.month + 1) t.day))) := by
  constructor
  · intro ι ds out hok
    obtain ⟨q25, q50, q75, _, _, _, _, hout⟩ := convert_cardamom_ok_inv ds out hok
    subst hout
    show (ds.times.map midMonth).map (fun t => (lowerBound t, upperBound t)) = _
    rw [List.map_map]
    rfl
  · intro ds
    show ds.startDates.map cfBounds = _
    rfl

/-- C2 witness: a December 2020 CARDAMOM step gets bounds
[(2020, 12, 1), (2021, 1, 1)); the March 5 JPL step gets bounds
[(2020, 3, 5), (2020, 4, 5)). -/
theorem C2_bounds_amended_witness :
    exQout.timeBounds = [(Date.mk 2020 12 1, Date.mk 2021 1 1)] ∧
    (cf_compliant cfEx).timeBounds = [(Date.mk 2020 3 5, Date.mk 2020 4 5)] := by
  constructor
  · rw [C2_bounds_amended.1 Unit exQ exQout exQ_converts]
    rfl
  · rw [C2_bounds_amended.2 cfEx]
    rfl

/-- Example CARDAMOM dataset with two time steps inside the same month. -/
def exDup : CardamomInput Unit :=
  { dims := ["time_fluxes", "latitude", "longitude", "quantile"]
    vname := "gpp"
    varUnits := "gC m-2 day-1"
    quantileVals := [(1/4, exQp25), (1/2, exQp50), (3/4, exQp75)]
    times := [⟨2020, 1, 1⟩, ⟨2020, 1, 2⟩] }

theorem exDup_converts : convert_cardamom exDup = Except.ok
    { vname := exDup.vname
      primary := exQp50
      primaryAttrs := { units := some (sreplace "gC" "g" exDup.varUnits)
                        ancillary_variables := some (exDup.vname ++ "_uncert") }
      uncert := fun x => Real.sqrt ((exQp75 x - exQp50 x) ^ 2 + (exQp25 x - exQp50 x) ^ 2)
      uncertAttrs := { units := some (sreplace "gC" "g" exDup.varUnits)
                       long_name := some (exDup.vname ++ " standard_error") }
      times := exDup.times.map midMonth
      timeBounds := (exDup.times.map midMonth).map
        (fun t => (lowerBound t, upperBound t)) } :=
  convert_cardamom_ok exDup exQp25 exQp50 exQp75 (by decide) exQ_sel50 exQ_sel75 exQ_sel25

/-- C4 counterexample: the input with the two accepted time steps
(2020-01-01, 2020-01-02) — distinct and strictly increasing — is mapped
to the output time axis [(2020, 1, 15), (2020, 1, 15)], which has a
duplicate and is not strictly monotonically increasing. -/
theorem C4_counterexample_duplicate_month :
    (convert_cardamom exDup).toOption.map CardamomOutput.times =
      some [Date.mk 2020 1 15, Date.mk 2020 1 15] ∧
    strictlyIncreasing [Date.mk 2020 1 15, Date.mk 2020 1 15] = false ∧
    exDup.times = [Date.mk 2020 1 1, Date.mk 2020 1 2] ∧
    toOrdinal (Date.mk 2020 1 1) < toOrdinal (Date.mk 2020 1 2) := by
  refine ⟨?_, by decide, by decide, by decide⟩
  rw [exDup_converts]
  rfl

/-- C4 (amended).  For every successful run, the output time axis is
exactly the input steps mapped to mid-month stamps, in input order and of
equal length; it is strictly monotonically increasing provided the input
steps have valid months and strictly increasing (year, month) pairs. -/
theorem C4_time_axis_preserved {ι : Type} (ds : CardamomInput ι)
    (out : CardamomOutput ι) (hok : convert_cardamom ds = .ok out) :
    out.times = ds.times.map midMonth ∧ out.times.length = ds.times.length ∧
    (validMonths ds.times = true → monthIncreasing ds.times = true →
      strictlyIncreasing out.times = true) := by
  obtain ⟨q25, q50, q75, _, _, _, _, hout⟩ := convert_cardamom_ok_inv ds out hok
  subst hout
  exact ⟨rfl, by simp, fun hv hm => strictlyIncreasing_map_midMonth ds.times hv hm⟩

/-- Example CARDAMOM dataset with two consecutive monthly steps. -/
def exTwo : CardamomInput Unit :=
  { dims := ["time_fluxes", "latitude", "longitude", "quantile"]
    vname := "gpp"
    varUnits := "gC m-2 day-1"
    quantileVals := [(1/4, exQp25), (1/2, exQp50), (3/4, exQp75)]
    times := [⟨2020, 11, 3⟩, ⟨2020, 12, 3⟩] }

theorem exTwo_converts : convert_cardamom exTwo = Except.ok
    { vname := exTwo.vname
      primary := exQp50
      primaryAttrs := { units := some (sreplace "gC" "g" exTwo.varUnits)
                        ancillary_variables := some (exTwo.vname ++ "_uncert") }
      uncert := fun x => Real.sqrt ((exQp75 x - exQp50 x) ^ 2 + (exQp25 x - exQp50 x) ^ 2)
      uncertAttrs := { units := some (sreplace "gC" "g" exTwo.varUnits)
                       long_name := some (exTwo.vname ++ " standard_error") }
      times := exTwo.times.map midMonth
      timeBounds := (exTwo.times.map midMonth).map
        (fun t => (lowerBound t, upperBound t)) } :=
  convert_cardamom_ok exTwo exQp25 exQp50 exQp75 (by decide) exQ_sel50 exQ_sel75 exQ_sel25

/-- C4 witness: two consecutive monthly steps produce the in-order,
equal-length, strictly increasing axis [(2020, 11, 15), (2020, 12, 15)]. -/
theorem C4_time_axis_preserved_witness :
    (convert_cardamom exTwo).toOption.map CardamomOutput.times =
      some [Date.mk 2020 11 15, Date.mk 2020 12 15] ∧
    strictlyIncreasing [Date.mk 2020 11 15, Date.mk 2020 12 15] = true := by
  have h := C4_time_axis_preserved exTwo _ exTwo_converts
  refine ⟨?_, ?_⟩
  · rw [exTwo_converts]
    rfl
  · exact h.2.2 (by decide) (by decide)

/-- C6.  Each input step (y, m) is mapped to the mid-month stamp
(y, m, 15); decoding that stamp's 365-day-calendar ordinal recovers the
original year and month (and day 15). -/
theorem C6_midmonth_roundtrip (t : Date) (h1 : 1 ≤ t.month) (h2 : t.month ≤ 12) :
    midMonth t = ⟨t.year, t.month, 15⟩ ∧
    fromOrdinal (toOrdinal (midMonth t)) = ⟨t.year, t.month, 15⟩ := by
  have hle := daysBeforeMonth_le t.month
  refine ⟨rfl, ?_⟩
  have hord : toOrdinal (midMonth t) = 365 * t.year + (daysBeforeMonth t.month + 14) := by
    show 365 * t.year + daysBeforeMonth t.month + (15 - 1) = _
    omega
  rw [hord]
  unfold fromOrdinal
  have hmod : (365 * t.year + (daysBeforeMonth t.month + 14)) % 365
      = daysBeforeMonth t.month + 14 := by omega
  have hdiv : (365 * t.year + (daysBeforeMonth t.month + 14)) / 365 = t.year := by omega
  rw [hmod, hdiv, monthOfYearDay_mid t.month h1 h2, dayOfMonthOf_mid t.month h1 h2]

/-- C6 witness: the December 2020 step round-trips through the mid-month
stamp and its `noleap` ordinal. -/
theorem C6_midmonth_roundtrip_witness :
    1 ≤ (Date.mk 2020 12 3).month ∧ (Date.mk 2020 12 3).month ≤ 12 ∧
    midMonth (Date.mk 2020 12 3) = Date.mk 2020 12 15 ∧
    fromOrdinal (toOrdinal (midMonth (Date.mk 2020 12 3))) = Date.mk 2020 12 15 := by
  have h := C6_midmonth_roundtrip (Date.mk 2020 12 3) (by decide) (by decide)
  exact ⟨by decide, by decide, h.1, h.2⟩

/-- C7.  A primary variable with an uncertainty companion references it
via `ancillary_variables` (`vname_uncert` on the CARDAMOM path,
`vname_std` on the JPL path); the companion carries the
`"vname standard_error"` name and the primary variable's final units. -/
theorem C7_metadata_linkage :
    (∀ (ι : Type) (ds : CardamomInput ι) (out : CardamomOutput ι),
        convert_cardamom ds = .ok out →
        out.primaryAttrs.ancillary_variables = some (ds.vname ++ "_uncert") ∧
        out.uncertAttrs.long_name = some (ds.vname ++ " standard_error") ∧
        out.uncertAttrs.units = out.primaryAttrs.units) ∧
    (∀ (ds : CFInput) (n : String) (a a2 : Attrs),
        (n, a) ∈ (cf_compliant ds).vars →
        (n ++ "_std", a2) ∈ (cf_compliant ds).vars →
        a.ancillary_variables = some (n ++ "_std") ∧
        a2.standard_name = some (n ++ " standard_error") ∧
        a2.units = a.units) := by
  constructor
  · intro ι ds out hok
    obtain ⟨q25, q50, q75, _, _, _, _, hout⟩ := convert_cardamom_ok_inv ds out hok
    subst hout
    exact ⟨rfl, rfl, rfl⟩
  · intro ds n a a2 ha hb
    have hnames : ((cf_compliant ds).vars).map Prod.fst
        = (renameStep (setUnitsStep ds.vars)).map Prod.fst := by
      show (stdLinkStep (renameStep (setUnitsStep ds.vars))).map Prod.fst = _
      exact stdLinkStep_names _
    have hmemb : (n ++ "_std") ∈ (renameStep (setUnitsStep ds.vars)).map Prod.fst := by
      rw [← hnames]
      exact List.mem_map_of_mem Prod.fst hb
    have hmemn : n ∈ (renameStep (setUnitsStep ds.vars)).map Prod.fst := by
      rw [← hnames]
      exact List.mem_map_of_mem Prod.fst ha
    simp only [cf_compliant, stdLinkStep, List.mem_map] at ha hb
    obtain ⟨p, hp, hpe⟩ := ha
    obtain ⟨p2, hp2, hpe2⟩ := hb
    have hpn : p.1 = n := congrArg Prod.fst hpe
    have hpa : stdAttrs ((renameStep (setUnitsStep ds.vars)).map Prod.fst) p = a :=
      congrArg Prod.snd hpe
    have hp2n : p2.1 = n ++ "_std" := congrArg Prod.fst hpe2
    have hp2a : stdAttrs ((renameStep (setUnitsStep ds.vars)).map Prod.fst) p2 = a2 :=
      congrArg Prod.snd hpe2
    refine ⟨?_, ?_, ?_⟩
    · rw [← hpa, stdAttrs_ancillary _ p (by rw [hpn]; exact hmemb), hpn]
    · rw [← hp2a, stdAttrs_standard _ p2 n hmemn hp2n]
    · rw [← hpa, ← hp2a, stdAttrs_units, stdAttrs_units,
        units_after_setUnits ds.vars p.1 p.2 (by simpa using hp),
        units_after_setUnits ds.vars p2.1 p2.2 (by simpa using hp2)]

/-- Example JPL dataset with a flux variable and its std companion. -/
def cfW : CFInput :=
  { startDates := []
    vars := [("land", {}), ("land_std", {})] }

/-- Attributes of the renamed `nbp` variable in the converted `cfW`. -/
def cfWa : Attrs :=
  { units := some "g m-2 year-1", ancillary_variables := some "nbp_std" }

/-- Attributes of the renamed `nbp_std` variable in the converted `cfW`. -/
def cfWs : Attrs :=
  { units := some "g m-2 year-1", standard_name := some "nbp standard_error" }

/-- C7 witness: in the converted example datasets, `nbp` references
`nbp_std`, `nbp_std` is named `nbp standard_error` with `nbp`'s units,
and the CARDAMOM primary references `gpp_uncert` symmetrically. -/
theorem C7_metadata_linkage_witness :
    ("nbp", cfWa) ∈ (cf_compliant cfW).vars ∧
    ("nbp" ++ "_std", cfWs) ∈ (cf_compliant cfW).vars ∧
    cfWa.ancillary_variables = some ("nbp" ++ "_std") ∧
    cfWs.standard_name = some ("nbp" ++ " standard_error") ∧
    cfWs.units = cfWa.units ∧
    exQout.primaryAttrs.ancillary_variables = some ("gpp" ++ "_uncert") ∧
    exQout.uncertAttrs.long_name = some ("gpp" ++ " standard_error") ∧
    exQout.uncertAttrs.units = exQout.primaryAttrs.units := by
  have h1 : ("nbp", cfWa) ∈ (cf_compliant cfW).vars := by decide
  have h2 : ("nbp" ++ "_std", cfWs) ∈ (cf_compliant cfW).vars := by decide
  have hcf := C7_metadata_linkage.2 cfW "nbp" cfWa cfWs h1 h2
  have hc := C7_metadata_linkage.1 Unit exQ exQout exQ_converts
  exact ⟨h1, h2, hcf.1, hcf.2.1, hcf.2.2, hc.1, hc.2.1, hc.2.2⟩

/-- C8.  Unit normalization rewrites the carbon-mass notation `gC` in the
primary variable's units string to `g`, leaving the rest unchanged: the
input units "gC m-2 day-1" yield "g m-2 day-1". -/
theorem C8_gC_rewritten_to_g :
    sreplace "gC" "g" "gC m-2 day-1" = "g m-2 day-1" ∧
    (∀ (ι : Type) (ds : CardamomInput ι) (out : CardamomOutput ι),
        convert_cardamom ds = .ok out →
        out.primaryAttrs.units = some (sreplace "gC" "g" ds.varUnits)) := by
  refine ⟨by decide, ?_⟩
  intro ι ds out hok
  obtain ⟨q25, q50, q75, _, _, _, _, hout⟩ := convert_cardamom_ok_inv ds out hok
  subst hout
  rfl

/-- C8 witness: the example dataset with input units "gC m-2 day-1" is
converted with primary units "g m-2 day-1". -/
theorem C8_gC_rewritten_to_g_witness :
    exQ.varUnits = "gC m-2 day-1" ∧
    exQout.primaryAttrs.units = some "g m-2 day-1" := by
  have h := C8_gC_rewritten_to_g.2 Unit exQ exQout exQ_converts
  refine ⟨rfl, ?_⟩
  rw [h]
  decide

/-- C9.  On the ensemble path, every variable of the converted dataset —
std variables included — carries the fixed units string "g m-2 year-1",
whatever units attribute it had on input (no variable escapes the
overwrite: the variable list keeps its length). -/
theorem C9_units_overwritten :
    (∀ (ds : CFInput) (n : String) (a : Attrs),
        (n, a) ∈ (cf_compliant ds).vars → a.units = some "g m-2 year-1") ∧
    (∀ ds : CFInput, (cf_compliant ds).vars.length = ds.vars.length) := by
  constructor
  · exact fun ds n a h => units_after_cf ds n a h
  · intro ds
    simp [cf_compliant, stdLinkStep, renameStep, setUnitsStep]

/-- Example JPL dataset whose variables already carry units attributes on
input. -/
def cfU : CFInput :=
  { startDates := []
    vars := [("land", { units := some "kgC ha-1" }),
             ("land_std", { units := some "mol m-2 s-1" })] }

/-- C9 witness: both variables of `cfU`, which arrive with other units
attributes, leave with units "g m-2 year-1". -/
theorem C9_units_overwritten_witness :
    ("nbp", cfWa) ∈ (cf_compliant cfU).vars ∧
    ("nbp_std", cfWs) ∈ (cf_compliant cfU).vars ∧
    cfWa.units = some "g m-2 year-1" ∧ cfWs.units = some "g m-2 year-1" ∧
    (cf_compliant cfU).vars.length = cfU.vars.length := by
  have h1 : ("nbp", cfWa) ∈ (cf_compliant cfU).vars := by decide
  have h2 : ("nbp_std", cfWs) ∈ (cf_compliant cfU).vars := by decide
  exact ⟨h1, h2, C9_units_overwritten.1 cfU "nbp" cfWa h1,
    C9_units_overwritten.1 cfU "nbp_std" cfWs h2, C9_units_overwritten.2 cfU⟩

end ILAMB
